import Mathlib

/-!
Shallow embedding of the request-execution core of a Helix API client
(`src/lib.rs` and `src/paginated.rs`): the error taxonomy and its
classification predicates, the credential store and token authority
(`Credentials`, `Client::get_oauth_token`), the request executor
(`Client::get_raw`), and the cursor-pagination stream (`paginated.rs`).

Network effects are made explicit: each potential network round-trip is an
oracle argument (`SendOutcome`) describing what the wire would return, and
the functions additionally report how many data-request sends and how many
token-mint calls they performed, together with the final client state.
-/

namespace TwitchHelix

/-- Embedding of a `reqwest::Error`: the only attribute the library inspects
is `status()`, which is `None` for transport-level failures (timeout,
connection reset, DNS) and `Some code` for errors generated from an HTTP
status. -/
structure ReqwestError where
  status : Option Nat
  deriving DecidableEq, Repr

/-- Embedding of `Error` from `src/lib.rs`. `HttpStatus` carries the
`reqwest::Result<String>` body as an `Option String`; the payloads of
`InvalidHeaderValue` are opaque to the library and are dropped. -/
inductive Error where
  | ExactlyOne (b : Bool)
  | HttpStatus (e : ReqwestError) (body : Option String)
  | InvalidHeaderValue
  | Reqwest (e : ReqwestError)
  | ResponseJson (msg : String) (body : String)
  deriving DecidableEq, Repr

/-- `StatusCode::UNAUTHORIZED`. -/
def UNAUTHORIZED : Nat := 401

/-- `StatusCode::is_client_error`: 400..=499. -/
def is_client_error (code : Nat) : Bool :=
  decide (400 ≤ code ∧ code < 500)

/-- `StatusCode::is_server_error`: 500..=599. -/
def is_server_error (code : Nat) : Bool :=
  decide (500 ≤ code ∧ code < 600)

/-- `Error::is_invalid_oauth_token` (`src/lib.rs` lines 55-60):
`e.status().map_or(false, |code| code == StatusCode::UNAUTHORIZED)` on the
`HttpStatus` and `Reqwest` variants, `false` on the rest. -/
def Error.is_invalid_oauth_token : Error → Bool
  | .HttpStatus e _ | .Reqwest e =>
      match e.status with
      | some code => code == UNAUTHORIZED
      | none => false
  | .ExactlyOne _ => false
  | .InvalidHeaderValue => false
  | .ResponseJson _ _ => false

/-- `Error::is_spurious_network_error` (`src/lib.rs` lines 62-67):
`e.status().map_or(false, |code| !code.is_client_error())` on the
`HttpStatus` and `Reqwest` variants, `false` on the rest. Note that
`map_or(false, _)` yields `false` when the error carries no status. -/
def Error.is_spurious_network_error : Error → Bool
  | .HttpStatus e _ | .Reqwest e =>
      match e.status with
      | some code => !(is_client_error code)
      | none => false
  | .ExactlyOne _ => false
  | .InvalidHeaderValue => false
  | .ResponseJson _ _ => false

/-- `itertools::EitherOrBoth`, as used by `Credentials`. -/
inductive EitherOrBoth (α β : Type) where
  | left (a : α)
  | right (b : β)
  | both (a : α) (b : β)
  deriving DecidableEq, Repr

/-- `Credentials` (`src/lib.rs` line 106):
`EitherOrBoth<(String, String), String>` with
left = (client_secret, scopes), right = oauth_token. -/
structure Credentials where
  val : EitherOrBoth (String × String) String
  deriving DecidableEq, Repr

/-- `Credentials::set_token` (`src/lib.rs` lines 124-129). -/
def Credentials.set_token (c : Credentials) (token : String) : Credentials :=
  ⟨match c.val with
    | .left (client_secret, scopes) | .both (client_secret, scopes) _ =>
        .both (client_secret, scopes) token
    | .right _ => .right token⟩

/-- The (client_secret, scopes) pair held by a store, if any. -/
def Credentials.secret : Credentials → Option (String × String)
  | ⟨.left p⟩ => some p
  | ⟨.both p _⟩ => some p
  | ⟨.right _⟩ => none

/-- The cached OAuth token held by a store, if any. -/
def Credentials.token : Credentials → Option String
  | ⟨.left _⟩ => none
  | ⟨.both _ t⟩ => some t
  | ⟨.right t⟩ => some t

/-- One HTTP response as it arrives on the wire: the status code, the body
text, and the value of a rate-limit reset header if the server sent one.
The source never reads any rate-limit header; the field is carried here so
that claims about rate-limit metadata can be stated. -/
structure HttpResponse where
  status : Nat
  body : String
  ratelimit_reset : Option Int
  deriving DecidableEq, Repr

/-- Oracle for one network send: either the send itself failed at transport
level (a `reqwest::Error` with no status), or a response came back. -/
inductive SendOutcome where
  | transportError (e : ReqwestError)
  | response (r : HttpResponse)
  deriving DecidableEq, Repr

/-- Models `resp.error_for_status_ref()` combined with capturing the body
text, as in `get_raw` lines 204-209 and 224-226: a 4xx/5xx status becomes
`Error::HttpStatus` carrying the status and the body. -/
def error_for_status (r : HttpResponse) : Except Error HttpResponse :=
  if is_client_error r.status || is_server_error r.status then
    .error (.HttpStatus ⟨some r.status⟩ (some r.body))
  else
    .ok r

/-- `ResponseExt::json_with_text_in_error` (`src/lib.rs` lines 83-86): the
JSON decoder is an oracle `decode`; a decode failure becomes
`Error::ResponseJson` carrying the raw body. -/
def json_with_text_in_error (T : Type) (decode : String → Except String T)
    (body : String) : Except Error T :=
  match decode body with
  | .error msg => .error (.ResponseJson msg body)
  | .ok v => .ok v

instance (α β : Type) [DecidableEq α] [DecidableEq β] : DecidableEq (Except α β) := fun x y =>
  match x, y with
  | .error a, .error b => decidable_of_iff (a = b) (by simp)
  | .error _, .ok _ => .isFalse (fun h => Except.noConfusion h)
  | .ok _, .error _ => .isFalse (fun h => Except.noConfusion h)
  | .ok a, .ok b => decidable_of_iff (a = b) (by simp)

/-- Result of `Client::get_oauth_token`: the returned value, the credential
store afterwards, and the number of token-mint network calls performed. -/
structure ObtainResult where
  result : Except Error String
  credentials : Credentials
  mints : Nat
  deriving DecidableEq, Repr

/-- The token-mint POST of `get_oauth_token` (`src/lib.rs` lines 245-254
and 256-261): send the client-credentials request (outcome given by the
`post` oracle), check the status, decode the `access_token` field (decoder
oracle `decodeTok`), and on success cache the new token via `set_token`.
Every branch performs exactly one network call. -/
def processMint (creds : Credentials) (decodeTok : String → Except String String)
    (post : SendOutcome) : ObtainResult :=
  match post with
  | .transportError e => ⟨.error (.Reqwest e), creds, 1⟩
  | .response r =>
    match error_for_status r with
    | .error e => ⟨.error e, creds, 1⟩
    | .ok r2 =>
      match decodeTok r2.body with
      | .error msg => ⟨.error (.ResponseJson msg r2.body), creds, 1⟩
      | .ok new_token => ⟨.ok new_token, creds.set_token new_token, 1⟩

/-- `Client::get_oauth_token` (`src/lib.rs` lines 234-262). The guard
returns non-auth errors transparently; then the (from_error, credentials)
pair selects: cached token returned with no network call, `TokenOnly` with
an auth error surfaces the error, and the remaining cases mint. -/
def get_oauth_token (creds : Credentials) (from_error : Option Error)
    (decodeTok : String → Except String String) (post : SendOutcome) : ObtainResult :=
  match from_error with
  | some e =>
    if !e.is_invalid_oauth_token then
      ⟨.error e, creds, 0⟩
    else
      match creds.val with
      | .right _ => ⟨.error e, creds, 0⟩
      | .left _ => processMint creds decodeTok post
      | .both _ _ => processMint creds decodeTok post
  | none =>
    match creds.val with
    | .right oauth_token => ⟨.ok oauth_token, creds, 0⟩
    | .both _ oauth_token => ⟨.ok oauth_token, creds, 0⟩
    | .left _ => processMint creds decodeTok post

/-- The mutable state of `Client` (`src/lib.rs` lines 138-144):
`rate_limit_reset` and the shared credential store. -/
structure ClientState where
  rate_limit_reset : Option Int
  credentials : Credentials
  deriving DecidableEq, Repr

/-- `Client::new` (`src/lib.rs` lines 152-165) initialises
`rate_limit_reset` to `None`. -/
def new_state (creds : Credentials) : ClientState :=
  ⟨none, creds⟩

/-- Result of `Client::get_raw`: the decoded value or error, the client
state afterwards, the number of GET sends to the data URL, and the number
of token-mint calls. -/
structure GetRawResult (T : Type) where
  result : Except Error T
  state : ClientState
  sends : Nat
  mints : Nat
  deriving DecidableEq, Repr

/-- The tail of `get_raw`'s loop body (`src/lib.rs` lines 221-227): the
second send. A transport failure propagates through `?` as
`Error::Reqwest`; a 4xx/5xx status returns `Error::HttpStatus`; otherwise
the body is decoded and the loop breaks. This path always brings the total
number of data sends to 2. -/
def get_raw_second_send (T : Type) (decode : String → Except String T)
    (st : ClientState) (token : String) (send2 : SendOutcome) (mints : Nat) :
    GetRawResult T :=
  match token, send2 with
  | _, .transportError e => ⟨.error (.Reqwest e), st, 2, mints⟩
  | _, .response r =>
    match error_for_status r with
    | .error e => ⟨.error e, st, 2, mints⟩
    | .ok r2 => ⟨json_with_text_in_error T decode r2.body, st, 2, mints⟩

/-- `Client::get_raw` (`src/lib.rs` lines 187-229). The rate-limit gate at
the top of the loop reads `rate_limit_reset` and, were it a future instant,
would suspend and re-check; it writes nothing — and no statement in the
source ever writes `rate_limit_reset`, so the field still holds its
construction-time value whenever it is read. Every arm of the `match` on
the first send's outcome either breaks out of the loop, returns, or falls
through to the second send (lines 221-227), which itself breaks or
returns; hence the loop body runs exactly once and `get_raw` is the
straight-line function below. Oracles: `post1`/`post2` for the up to two
token-mint calls, `send1`/`send2` for the up to two data sends. -/
def get_raw (T : Type) (decode : String → Except String T)
    (decodeTok : String → Except String String) (st : ClientState)
    (post1 post2 : SendOutcome) (send1 send2 : SendOutcome) : GetRawResult T :=
  match get_oauth_token st.credentials none decodeTok post1 with
  | ⟨.error e, creds1, m1⟩ => ⟨.error e, { st with credentials := creds1 }, 0, m1⟩
  | ⟨.ok token, creds1, m1⟩ =>
    let st1 : ClientState := { st with credentials := creds1 }
    let response_data : Except Error HttpResponse :=
      match send1 with
      | .transportError e => .error (.Reqwest e)
      | .response r => error_for_status r
    match response_data with
    | .ok r => ⟨json_with_text_in_error T decode r.body, st1, 1, m1⟩
    | .error e =>
      if e.is_spurious_network_error then
        get_raw_second_send T decode st1 token send2 m1
      else if e.is_invalid_oauth_token then
        match get_oauth_token st1.credentials (some e) decodeTok post2 with
        | ⟨.error e2, creds2, m2⟩ =>
            ⟨.error e2, { st1 with credentials := creds2 }, 1, m1 + m2⟩
        | ⟨.ok token2, creds2, m2⟩ =>
            get_raw_second_send T decode { st1 with credentials := creds2 } token2 send2 (m1 + m2)
      else
        ⟨.error e, st1, 1, m1⟩

/-- `Cursor` (`src/paginated.rs` lines 16-22). -/
inductive Cursor where
  | Start
  | At (cursor : String)
  | End
  deriving DecidableEq, Repr

/-- `Cursor::query` (`src/paginated.rs` lines 24-32). -/
def Cursor.query : Cursor → Option (List (String × String))
  | .Start => some []
  | .At cursor => some [("after", cursor)]
  | .End => none

/-- `impl Default for Cursor` (`src/paginated.rs` lines 34-36). -/
def Cursor.default : Cursor := .End

/-- `impl From<Option<String>> for Cursor` (`src/paginated.rs` lines
38-46): `Some(cursor)` maps to `At(cursor)` — whatever the string — and
`None` maps to `End`. -/
def Cursor.fromOption : Option String → Cursor
  | some cursor => .At cursor
  | none => .End

/-- `PaginationInfo` (`src/paginated.rs` lines 48-51). -/
structure PaginationInfo where
  cursor : Cursor
  deriving DecidableEq, Repr

/-- `impl Default` derived for `PaginationInfo`. -/
def PaginationInfo.default : PaginationInfo := ⟨Cursor.default⟩

/-- `PaginatedResult` (`src/paginated.rs` lines 53-58). -/
structure PaginatedResult (T : Type) where
  data : List T
  pagination : PaginationInfo
  deriving DecidableEq, Repr

/-- Serde decoding of one page: the wire carries the item list and either
a pagination object with its optional cursor string (`some cursorOpt`) or
no pagination object at all (`none`, handled by `#[serde(default)]` on the
`pagination` field). -/
def decodePaginatedResult (T : Type) (data : List T)
    (pagination : Option (Option String)) : PaginatedResult T :=
  ⟨data, match pagination with
         | some cursorOpt => ⟨Cursor.fromOption cursorOpt⟩
         | none => PaginationInfo.default⟩

/-- The closure passed to `futures::stream::try_unfold` in `stream`
(`src/paginated.rs` lines 60-79): `Cursor::End` produces no fetch and ends
the stream; otherwise the fixed query is chained with the cursor's query,
one page is fetched (oracle `fetch`, standing for `client.get_raw`), an
empty page ends the stream, and a non-empty page yields its items and the
page's reported cursor. -/
def streamStep (T : Type)
    (fetch : List (String × String) → Except Error (PaginatedResult T))
    (query : List (String × String)) (cursor : Cursor) :
    Except Error (Option (List T × Cursor)) :=
  match cursor.query with
  | none => .ok none
  | some cquery =>
    match fetch (query ++ cquery) with
    | .error e => .error e
    | .ok page =>
      if page.data.isEmpty then .ok none
      else .ok (some (page.data, page.pagination.cursor))

/-- Driving the unfolded stream for a bounded number of steps: returns the
items yielded in order, the terminal error if one occurred, and the number
of page fetches performed (a step whose cursor is `End` fetches nothing). -/
def streamRun (T : Type)
    (fetch : List (String × String) → Except Error (PaginatedResult T))
    (query : List (String × String)) : Nat → Cursor → List T × Option Error × Nat
  | 0, _ => ([], none, 0)
  | fuel + 1, cursor =>
    let fetches : Nat := match cursor.query with | some _ => 1 | none => 0
    match streamStep T fetch query cursor with
    | .error e => ([], some e, fetches)
    | .ok none => ([], none, fetches)
    | .ok (some (items, next)) =>
      let rest := streamRun T fetch query fuel next
      (items ++ rest.1, rest.2.1, fetches + rest.2.2)

/-! ## Helper lemmas shared by several developments -/

theorem set_token_secret_eq (c : Credentials) (t : String) :
    (c.set_token t).secret = c.secret := by
  obtain ⟨v⟩ := c
  rcases v with ⟨s, sc⟩ | b | ⟨⟨s, sc⟩, b⟩ <;> rfl

theorem processMint_secret_eq (c : Credentials)
    (dt : String → Except String String) (post : SendOutcome) :
    (processMint c dt post).credentials.secret = c.secret := by
  rcases post with e | r
  · rfl
  · unfold processMint
    rcases h : error_for_status r with e2 | r2 <;> simp only [h]
    rcases h2 : dt r2.body with msg | tk
    · simp only [h2]
    · simp only [h2]
      exact set_token_secret_eq c tk

theorem processMint_mints_eq_one (c : Credentials)
    (dt : String → Except String String) (post : SendOutcome) :
    (processMint c dt post).mints = 1 := by
  rcases post with e | r
  · rfl
  · unfold processMint
    rcases h : error_for_status r with e2 | r2 <;> simp only [h]
    rcases h2 : dt r2.body with msg | tk <;> simp only [h2]

theorem get_oauth_token_secret_eq (c : Credentials) (fe : Option Error)
    (dt : String → Except String String) (post : SendOutcome) :
    (get_oauth_token c fe dt post).credentials.secret = c.secret := by
  obtain ⟨v⟩ := c
  rcases fe with _ | e <;> rcases v with p | b | ⟨p, b⟩ <;>
    simp only [get_oauth_token] <;>
    first
    | rfl
    | exact processMint_secret_eq _ dt post
    | (split <;>
        first
        | rfl
        | exact processMint_secret_eq _ dt post)

theorem streamRun_end (T : Type)
    (fetch : List (String × String) → Except Error (PaginatedResult T))
    (query : List (String × String)) (fuel : Nat) :
    streamRun T fetch query fuel Cursor.End = ([], none, 0) := by
  cases fuel <;> simp [streamRun, streamStep, Cursor.query]

theorem streamRun_step (T : Type)
    (fetch : List (String × String) → Except Error (PaginatedResult T))
    (query : List (String × String)) (fuel : Nat) (cursor : Cursor)
    (cquery : List (String × String)) (items : List T) (next : Cursor)
    (hq : cursor.query = some cquery)
    (hs : streamStep T fetch query cursor = .ok (some (items, next))) :
    streamRun T fetch query (fuel + 1) cursor
      = (items ++ (streamRun T fetch query fuel next).1,
         (streamRun T fetch query fuel next).2.1,
         1 + (streamRun T fetch query fuel next).2.2) := by
  simp [streamRun, hq, hs]

/-! ## Claims -/

/-- C9: for every `Error` value, `is_invalid_oauth_token` and
`is_spurious_network_error` are never both true (a 401 is a client error,
so an unauthorized error is never spurious), and both predicates are false
on `ExactlyOne`, `InvalidHeaderValue` and `ResponseJson` errors, so a
JSON-decode failure is never retried and never triggers
reauthentication. -/
theorem C9_classification_predicates_disjoint (e : Error) :
    (¬(e.is_invalid_oauth_token = true ∧ e.is_spurious_network_error = true))
    ∧ (∀ b, (Error.ExactlyOne b).is_invalid_oauth_token = false
        ∧ (Error.ExactlyOne b).is_spurious_network_error = false)
    ∧ (Error.InvalidHeaderValue.is_invalid_oauth_token = false
        ∧ Error.InvalidHeaderValue.is_spurious_network_error = false)
    ∧ (∀ msg body, (Error.ResponseJson msg body).is_invalid_oauth_token = false
        ∧ (Error.ResponseJson msg body).is_spurious_network_error = false) := by
  refine ⟨?_, fun b => ⟨rfl, rfl⟩, ⟨rfl, rfl⟩, fun msg body => ⟨rfl, rfl⟩⟩
  rintro ⟨h1, h2⟩
  cases e with
  | ExactlyOne b => exact Bool.noConfusion h1
  | InvalidHeaderValue => exact Bool.noConfusion h1
  | ResponseJson msg body => exact Bool.noConfusion h1
  | HttpStatus e body =>
      obtain ⟨s⟩ := e
      cases s with
      | none => exact Bool.noConfusion h1
      | some code =>
          simp only [Error.is_invalid_oauth_token, UNAUTHORIZED, beq_iff_eq] at h1
          subst h1
          exact Bool.noConfusion (show false = true from h2)
  | Reqwest e =>
      obtain ⟨s⟩ := e
      cases s with
      | none => exact Bool.noConfusion h1
      | some code =>
          simp only [Error.is_invalid_oauth_token, UNAUTHORIZED, beq_iff_eq] at h1
          subst h1
          exact Bool.noConfusion (show false = true from h2)

/-- C7: the credential-store invariant holds under every mutation
(`set_token` is the only mutation in the source, and `get_oauth_token` is
the only caller): the secret is never discarded, a minted token replaces
the previous token in place, `SecretOnly` (`left`) upgrades to
`SecretAndToken` (`both`), and a secret-holding store never becomes
secretless. -/
theorem C7_secret_never_discarded (c : Credentials) (t : String) (fe : Option Error)
    (decodeTok : String → Except String String) (post : SendOutcome) :
    (c.set_token t).secret = c.secret
    ∧ (c.set_token t).token = some t
    ∧ (∀ p, c.val = .left p → (c.set_token t).val = .both p t)
    ∧ (∀ p tok0, c.val = .both p tok0 → (c.set_token t).val = .both p t)
    ∧ (get_oauth_token c fe decodeTok post).credentials.secret = c.secret := by
  refine ⟨set_token_secret_eq c t, ?_, ?_, ?_, get_oauth_token_secret_eq c fe decodeTok post⟩
  · obtain ⟨v⟩ := c
    rcases v with ⟨s, sc⟩ | b | ⟨⟨s, sc⟩, b⟩ <;> rfl
  · rintro ⟨s, sc⟩ h
    obtain ⟨v⟩ := c
    cases h
    rfl
  · rintro ⟨s, sc⟩ tok0 h
    obtain ⟨v⟩ := c
    cases h
    rfl

/-- C7 witness: a `SecretOnly` store upgraded at a concrete input. -/
theorem C7_witness :
    (Credentials.set_token ⟨.left ("cs", "sc")⟩ "t").val
      = EitherOrBoth.both ("cs", "sc") "t" :=
  (C7_secret_never_discarded ⟨.left ("cs", "sc")⟩ "t" none (fun _ => .ok "x")
    (.response ⟨200, "b", none⟩)).2.2.1 ("cs", "sc") rfl

/-- C6: with a cached token (`TokenOnly` or `SecretAndToken`),
`get_oauth_token` with `from_error = None` returns the cached token with
zero mint calls; and a `TokenOnly` store asked to recover from an
unauthorized error returns that same error with zero mint calls. -/
theorem C6_cached_token_no_mint (tok : String) (p : String × String)
    (decodeTok : String → Except String String) (post : SendOutcome) (e : Error)
    (he : e.is_invalid_oauth_token = true) :
    get_oauth_token ⟨.right tok⟩ none decodeTok post = ⟨.ok tok, ⟨.right tok⟩, 0⟩
    ∧ get_oauth_token ⟨.both p tok⟩ none decodeTok post = ⟨.ok tok, ⟨.both p tok⟩, 0⟩
    ∧ get_oauth_token ⟨.right tok⟩ (some e) decodeTok post
        = ⟨.error e, ⟨.right tok⟩, 0⟩ := by
  refine ⟨rfl, rfl, ?_⟩
  simp [get_oauth_token, he]

/-- C6 witness at a concrete `TokenOnly` store and 401 error. -/
theorem C6_witness :
    get_oauth_token ⟨.right "tok"⟩ (some (.HttpStatus ⟨some 401⟩ none))
        (fun _ => .ok "x") (.response ⟨200, "b", none⟩)
      = ⟨.error (.HttpStatus ⟨some 401⟩ none), ⟨.right "tok"⟩, 0⟩ :=
  (C6_cached_token_no_mint "tok" ("cs", "sc") (fun _ => .ok "x")
    (.response ⟨200, "b", none⟩) (.HttpStatus ⟨some 401⟩ none) (by decide)).2.2

/-- C5: on a `SecretAndToken` store, `get_oauth_token` with an
unauthorized error performs exactly one mint call whatever the mint
outcome, and on a successful mint the store caches exactly the newly
minted token while the client secret and scopes are unchanged. -/
theorem C5_reauth_single_mint (client_secret scopes tok new_token : String)
    (e : Error) (decodeTok : String → Except String String) (post : SendOutcome)
    (r : HttpResponse) (he : e.is_invalid_oauth_token = true)
    (hr : is_client_error r.status = false ∧ is_server_error r.status = false)
    (hdec : decodeTok r.body = .ok new_token) :
    (get_oauth_token ⟨.both (client_secret, scopes) tok⟩ (some e) decodeTok post).mints = 1
    ∧ get_oauth_token ⟨.both (client_secret, scopes) tok⟩ (some e) decodeTok (.response r)
        = ⟨.ok new_token, ⟨.both (client_secret, scopes) new_token⟩, 1⟩ := by
  constructor
  · simp only [get_oauth_token, he, Bool.not_true, Bool.false_eq_true, if_false]
    exact processMint_mints_eq_one _ decodeTok post
  · simp [get_oauth_token, he, processMint, error_for_status, hr.1, hr.2, hdec,
      Credentials.set_token]

/-- C5 witness: concrete reauthentication with a successful mint. -/
theorem C5_witness :
    get_oauth_token ⟨.both ("cs", "sc") "old"⟩ (some (.HttpStatus ⟨some 401⟩ none))
        (fun _ => .ok "new") (.response ⟨200, "b", none⟩)
      = ⟨.ok "new", ⟨.both ("cs", "sc") "new"⟩, 1⟩ :=
  (C5_reauth_single_mint "cs" "sc" "old" "new" (.HttpStatus ⟨some 401⟩ none)
    (fun _ => .ok "new") (.response ⟨200, "b", none⟩) ⟨200, "b", none⟩
    (by decide) (by decide) rfl).2

/-- C2 counterexample: the claim states that an empty-string server cursor
maps to `End` and terminates the stream, but
`impl From<Option<String>> for Cursor` maps `Some("")` to `At("")`, which
yields a further fetch carrying an `after=` parameter. -/
theorem C2_counterexample :
    Cursor.fromOption (some "") ≠ Cursor.End
    ∧ (Cursor.fromOption (some "")).query = some [("after", "")] :=
  ⟨by decide, rfl⟩

/-- C2 (amended): only an absent server cursor maps to `End` (terminating
the stream with no fetch); every present cursor string, the empty string
included, maps to `At` and yields a further fetch with an `after=token`
parameter. -/
theorem C2_cursor_mapping (s : String) (T : Type)
    (fetch : List (String × String) → Except Error (PaginatedResult T))
    (query : List (String × String)) :
    Cursor.fromOption none = Cursor.End
    ∧ Cursor.fromOption (some s) = Cursor.At s
    ∧ (Cursor.At s).query = some [("after", s)]
    ∧ Cursor.End.query = none
    ∧ streamStep T fetch query Cursor.End = .ok none :=
  ⟨rfl, rfl, rfl, rfl, rfl⟩

/-- C8: a page whose decoded item list is empty terminates the stream at
once — no items, exactly the one fetch that produced the page, and no
further fetches — whatever next cursor the page reported. -/
theorem C8_empty_page_terminates (T : Type)
    (fetch : List (String × String) → Except Error (PaginatedResult T))
    (query cquery : List (String × String)) (cursor : Cursor)
    (pagination : PaginationInfo)
    (hq : cursor.query = some cquery)
    (hf : fetch (query ++ cquery) = .ok ⟨[], pagination⟩) :
    streamStep T fetch query cursor = .ok none
    ∧ ∀ fuel, streamRun T fetch query (fuel + 1) cursor = ([], none, 1) := by
  have hstep : streamStep T fetch query cursor = .ok none := by
    simp [streamStep, hq, hf]
  exact ⟨hstep, fun fuel => by simp [streamRun, hstep, hq]⟩

/-- C8 witness: an empty page that reports the non-empty cursor "next"
still terminates the stream after its single fetch. -/
theorem C8_witness :
    streamRun Unit (fun _ => .ok ⟨[], ⟨Cursor.At "next"⟩⟩) [] 1 Cursor.Start
      = ([], none, 1) :=
  (C8_empty_page_terminates Unit (fun _ => .ok ⟨[], ⟨Cursor.At "next"⟩⟩) [] []
    Cursor.Start ⟨Cursor.At "next"⟩ rfl rfl).2 0

/-- C10: a page response with no pagination object decodes, via the serde
default, to the cursor `End`; the stream yields that page's items and then
terminates with no further fetch. -/
theorem C10_missing_pagination_defaults_to_end (T : Type) (items : List T)
    (fetch : List (String × String) → Except Error (PaginatedResult T))
    (query : List (String × String))
    (hne : items ≠ [])
    (hf : fetch query = .ok (decodePaginatedResult T items none)) :
    (decodePaginatedResult T items none).pagination.cursor = Cursor.End
    ∧ ∀ fuel, streamRun T fetch query (fuel + 2) Cursor.Start = (items, none, 1) := by
  refine ⟨rfl, fun fuel => ?_⟩
  have hstep : streamStep T fetch query Cursor.Start = .ok (some (items, Cursor.End)) := by
    simp [streamStep, Cursor.query, hf, decodePaginatedResult, PaginationInfo.default,
      Cursor.default, hne]
  rw [show fuel + 2 = (fuel + 1) + 1 from rfl,
    streamRun_step T fetch query (fuel + 1) Cursor.Start [] items Cursor.End rfl hstep,
    streamRun_end T fetch query (fuel + 1)]
  simp

/-- C10 witness: a concrete one-page stream with the pagination object
omitted. -/
theorem C10_witness :
    streamRun Nat (fun _ => .ok (decodePaginatedResult Nat [7] none)) [] 2 Cursor.Start
      = ([7], none, 1) :=
  (C10_missing_pagination_defaults_to_end Nat [7]
    (fun _ => .ok (decodePaginatedResult Nat [7] none)) [] (by decide) rfl).2 0

/-- C4 counterexample: the claim states that a transport-level failure
with no HTTP status is classified spurious, but
`is_spurious_network_error` computes `status().map_or(false, ...)`, which
is `false` when there is no status. -/
theorem C4_counterexample :
    ¬((Error.Reqwest ⟨none⟩).is_spurious_network_error = true) := by decide

/-- C4 (amended): the predicate classifies as spurious exactly the errors
that carry a status outside the 4xx class (so every 5xx is spurious), and
a transport failure carrying no status is not spurious. -/
theorem C4_spurious_requires_status (e : ReqwestError) (body : Option String) :
    ((Error.Reqwest e).is_spurious_network_error = true
        ↔ ∃ code, e.status = some code ∧ is_client_error code = false)
    ∧ ((Error.HttpStatus e body).is_spurious_network_error = true
        ↔ ∃ code, e.status = some code ∧ is_client_error code = false)
    ∧ (∀ code, 500 ≤ code → code < 600 →
        (Error.Reqwest ⟨some code⟩).is_spurious_network_error = true)
    ∧ (Error.Reqwest ⟨none⟩).is_spurious_network_error = false
    ∧ (Error.HttpStatus ⟨none⟩ body).is_spurious_network_error = false := by
  obtain ⟨s⟩ := e
  refine ⟨?_, ?_, ?_, rfl, rfl⟩
  · cases s <;> simp [Error.is_spurious_network_error]
  · cases s <;> simp [Error.is_spurious_network_error]
  · intro code h1 h2
    simp [Error.is_spurious_network_error, is_client_error]
    omega

/-- C4 witness: a 503 response is spurious. -/
theorem C4_witness :
    (Error.Reqwest ⟨some 503⟩).is_spurious_network_error = true :=
  (C4_spurious_requires_status ⟨some 503⟩ none).2.2.1 503 (by decide) (by decide)

theorem get_raw_second_send_state (T : Type) (decode : String → Except String T)
    (st : ClientState) (token : String) (s2 : SendOutcome) (m : Nat) :
    (get_raw_second_send T decode st token s2 m).state = st := by
  rcases s2 with e | r
  · rfl
  · unfold get_raw_second_send
    rcases h : error_for_status r with e2 | r2 <;> simp [h]

theorem get_raw_second_send_sends (T : Type) (decode : String → Except String T)
    (st : ClientState) (token : String) (s2 : SendOutcome) (m : Nat) :
    (get_raw_second_send T decode st token s2 m).sends = 2 := by
  rcases s2 with e | r
  · rfl
  · unfold get_raw_second_send
    rcases h : error_for_status r with e2 | r2 <;> simp [h]

theorem get_raw_state_eq (T : Type) (decode : String → Except String T)
    (decodeTok : String → Except String String) (st : ClientState)
    (post1 post2 send1 send2 : SendOutcome) :
    (get_raw T decode decodeTok st post1 post2 send1 send2).state.rate_limit_reset
      = st.rate_limit_reset := by
  unfold get_raw
  rcases h1 : get_oauth_token st.credentials none decodeTok post1 with ⟨res1, creds1, m1⟩
  rcases res1 with e | token <;> simp only [h1]
  all_goals repeat' split
  all_goals
    first
    | rfl
    | rw [get_raw_second_send_state]

/-- C1 counterexample: the claim states that 5xx/transport outcomes are
retried without limit and never returned to the caller, but the loop body
of `get_raw` has no path back to its start: a 500 on the first send falls
through to the one retry at lines 221-227, and when that retry answers 502
the error — itself of the spurious class — is returned to the caller
after exactly two sends. -/
theorem C1_counterexample :
    (get_raw Unit (fun _ => .ok ()) (fun _ => .ok "t") ⟨none, ⟨.right "tok"⟩⟩
        (.response ⟨200, "", none⟩) (.response ⟨200, "", none⟩)
        (.response ⟨500, "oops", none⟩) (.response ⟨502, "bad", none⟩)).result
      = .error (.HttpStatus ⟨some 502⟩ (some "bad"))
    ∧ (Error.HttpStatus ⟨some 502⟩ (some "bad")).is_spurious_network_error = true
    ∧ (get_raw Unit (fun _ => .ok ()) (fun _ => .ok "t") ⟨none, ⟨.right "tok"⟩⟩
        (.response ⟨200, "", none⟩) (.response ⟨200, "", none⟩)
        (.response ⟨500, "oops", none⟩) (.response ⟨502, "bad", none⟩)).sends = 2 :=
  ⟨rfl, rfl, rfl⟩

/-- C1 (amended): a first send failing with a 5xx status is classified
spurious and triggers exactly one immediate retry — the second send —
whose outcome, success or failure, is what the caller receives (two sends
in total); a transport-level failure carrying no status is not spurious
and is returned to the caller at once, with no retry. -/
theorem C1_exactly_one_retry (T : Type) (decode : String → Except String T)
    (decodeTok : String → Except String String) (reset : Option Int) (tok : String)
    (r : HttpResponse) (post1 post2 send2 : SendOutcome) (ec : ReqwestError)
    (h5 : 500 ≤ r.status ∧ r.status < 600) (hnc : ec.status = none) :
    (get_raw T decode decodeTok ⟨reset, ⟨.right tok⟩⟩ post1 post2 (.response r) send2
        = get_raw_second_send T decode ⟨reset, ⟨.right tok⟩⟩ tok send2 0)
    ∧ (get_raw T decode decodeTok ⟨reset, ⟨.right tok⟩⟩ post1 post2 (.response r) send2).sends
        = 2
    ∧ get_raw T decode decodeTok ⟨reset, ⟨.right tok⟩⟩ post1 post2 (.transportError ec) send2
        = ⟨.error (.Reqwest ec), ⟨reset, ⟨.right tok⟩⟩, 1, 0⟩ := by
  have hcl : is_client_error r.status = false := by
    simp only [is_client_error, decide_eq_false_iff_not]
    omega
  have hsrv : is_server_error r.status = true := by
    simp only [is_server_error, decide_eq_true_eq]
    omega
  have hefs : error_for_status r = .error (.HttpStatus ⟨some r.status⟩ (some r.body)) := by
    simp [error_for_status, hcl, hsrv]
  have hspur : (Error.HttpStatus ⟨some r.status⟩ (some r.body)).is_spurious_network_error
      = true := by
    simp [Error.is_spurious_network_error, hcl]
  have hmain : get_raw T decode decodeTok ⟨reset, ⟨.right tok⟩⟩ post1 post2 (.response r) send2
      = get_raw_second_send T decode ⟨reset, ⟨.right tok⟩⟩ tok send2 0 := by
    simp [get_raw, get_oauth_token, hefs, hspur]
  refine ⟨hmain, ?_, ?_⟩
  · rw [hmain, get_raw_second_send_sends]
  · have hnspur : (Error.Reqwest ec).is_spurious_network_error = false := by
      simp [Error.is_spurious_network_error, hnc]
    have hninv : (Error.Reqwest ec).is_invalid_oauth_token = false := by
      simp [Error.is_invalid_oauth_token, hnc]
    simp [get_raw, get_oauth_token, hnspur, hninv]

/-- C1 witness: a concrete statusless transport failure is returned
immediately after a single send. -/
theorem C1_witness :
    get_raw Unit (fun _ => Except.ok ()) (fun _ => Except.ok "t") ⟨none, ⟨.right "tok"⟩⟩
        (.response ⟨200, "", none⟩) (.response ⟨200, "", none⟩)
        (.transportError ⟨none⟩) (.response ⟨200, "", none⟩)
      = ⟨.error (.Reqwest ⟨none⟩), ⟨none, ⟨.right "tok"⟩⟩, 1, 0⟩ :=
  (C1_exactly_one_retry Unit (fun _ => Except.ok ()) (fun _ => Except.ok "t") none "tok"
    ⟨500, "oops", none⟩ (.response ⟨200, "", none⟩) (.response ⟨200, "", none⟩)
    (.response ⟨200, "", none⟩) ⟨none⟩ (by decide) rfl).2.2

/-- C3 counterexample: the claim states that a response carrying a
rate-limit reset timestamp updates the shared Rate-Limit State, but on a
run whose successful response carries the reset value 12345 the state
still holds its construction-time `none` — the source never writes
`rate_limit_reset`. -/
theorem C3_counterexample :
    (get_raw Unit (fun _ => .ok ()) (fun _ => .ok "t") ⟨none, ⟨.right "tok"⟩⟩
        (.response ⟨200, "", none⟩) (.response ⟨200, "", none⟩)
        (.response ⟨200, "ok", some 12345⟩) (.response ⟨200, "", none⟩)).state.rate_limit_reset
      = none
    ∧ (get_raw Unit (fun _ => .ok ()) (fun _ => .ok "t") ⟨none, ⟨.right "tok"⟩⟩
        (.response ⟨200, "", none⟩) (.response ⟨200, "", none⟩)
        (.response ⟨200, "ok", some 12345⟩) (.response ⟨200, "", none⟩)).state.rate_limit_reset
      ≠ some 12345 :=
  ⟨rfl, fun h => Option.noConfusion h⟩

/-- C3 (amended): response handling never writes the Rate-Limit State:
on every run of `get_raw` — whatever rate-limit metadata the responses
carry — the state's `rate_limit_reset` afterwards equals its value
before, and a client built by `Client::new` (which initialises the field
to `None`) still holds `none` after any run. -/
theorem C3_rate_limit_state_never_updated (T : Type) (decode : String → Except String T)
    (decodeTok : String → Except String String) (st : ClientState) (creds : Credentials)
    (post1 post2 send1 send2 : SendOutcome) :
    (get_raw T decode decodeTok st post1 post2 send1 send2).state.rate_limit_reset
      = st.rate_limit_reset
    ∧ (get_raw T decode decodeTok (new_state creds) post1 post2 send1 send2).state.rate_limit_reset
      = none :=
  ⟨get_raw_state_eq T decode decodeTok st post1 post2 send1 send2,
   get_raw_state_eq T decode decodeTok (new_state creds) post1 post2 send1 send2⟩

end TwitchHelix
